import Mathlib

/-!
Verification of the claude-session-logging repository.

The development shallowly embeds the two Python source files:

* `claude-log-clean.py` — replays a recorded terminal session through the
  pyte terminal emulator and renders the final screen either as trimmed
  plain text or as a styled HTML document (`COLORS`, `char_to_html`,
  `screen_to_html`, `clean_log`, `main`).
* `claude-log-server.py` — a small web front end that serves rendered logs
  (`convert_log_to_html`, `view_log`), with an in-memory cache keyed by
  the source log's modification time.

Pure Python functions become Lean functions; the file system, the
in-memory cache and the subprocess invocation of the cleaning script are
passed explicitly.  The pyte terminal engine itself is an external
dependency of the repository, so playback is abstracted as an `Engine`
parameter; the small pieces of its interface that the code relies on
(cell shape, the `display` property, grid construction) are embedded
directly, following pyte's documented behaviour and, where noted, the
specification's description of the state engine.
-/

/-- The value space of a pyte cell's `fg` / `bg` attribute as used by
`char_to_html`: either a Python string (a color name or `"default"`) or a
Python int (256-color / 24-bit value), matching the `isinstance` dispatch
in the source. -/
inductive ColorVal where
  | str (s : String)
  | int (n : Nat)
deriving DecidableEq

/-- One cell of the pyte screen buffer: glyph, foreground, background and
bold flag, the fields of `pyte.screens.Char` read by the renderer. -/
structure PyChar where
  data : String
  fg : ColorVal
  bg : ColorVal
  bold : Bool
deriving DecidableEq

/-- The default cell: a plain space with default colors, as produced by
pyte for every position never written to. -/
def defaultChar : PyChar := ⟨" ", ColorVal.str "default", ColorVal.str "default", false⟩

/-- The final pyte screen handed to the renderer.  `buffer` models pyte's
default-dict row buffers: it is total, returning the stored cell for
written positions and `defaultChar` elsewhere. -/
structure Screen where
  lines : Nat
  columns : Nat
  buffer : Nat → Nat → PyChar

/-- Python truthiness of a cell color value (`if fg and ...`): a string is
truthy iff nonempty, an int iff nonzero. -/
def pyTruthy : ColorVal → Bool
  | ColorVal.str s => s != ""
  | ColorVal.int n => n != 0

/-- Python `''.join` on a list of strings. -/
def strJoin (l : List String) : String := ⟨(l.map String.data).flatten⟩

/-- Python `str.rstrip()`: drop trailing whitespace characters. -/
def pyRstrip (s : String) : String := ⟨(s.data.reverse.dropWhile Char.isWhitespace).reverse⟩

/-- Python `str.strip()`: drop leading and trailing whitespace characters. -/
def pyStrip (s : String) : String :=
  ⟨((s.data.dropWhile Char.isWhitespace).reverse.dropWhile Char.isWhitespace).reverse⟩

/-- The `COLORS` dict of `claude-log-clean.py`: ANSI color name to CSS hex. -/
def COLORS (s : String) : Option String :=
  if s = "black" then some "#000000"
  else if s = "red" then some "#cc0000"
  else if s = "green" then some "#4e9a06"
  else if s = "brown" then some "#c4a000"
  else if s = "yellow" then some "#c4a000"
  else if s = "blue" then some "#3465a4"
  else if s = "magenta" then some "#75507b"
  else if s = "cyan" then some "#06989a"
  else if s = "white" then some "#d3d7cf"
  else if s = "default" then some "#d3d7cf"
  else if s = "brightblack" then some "#555753"
  else if s = "brightred" then some "#ef2929"
  else if s = "brightgreen" then some "#8ae234"
  else if s = "brightyellow" then some "#fce94f"
  else if s = "brightblue" then some "#729fcf"
  else if s = "brightmagenta" then some "#ad7fa8"
  else if s = "brightcyan" then some "#34e2e2"
  else if s = "brightwhite" then some "#eeeeec"
  else none

/-- Python `f'#{n:06x}'`: lowercase hex, zero-padded to at least six digits. -/
def hex06 (n : Nat) : String :=
  ⟨'#' :: (List.replicate (6 - (Nat.toDigits 16 n).length) '0' ++ Nat.toDigits 16 n)⟩

/-- The foreground color resolution of `char_to_html` (lines 41-48):
named colors through `COLORS` with a `bright`-prefixed retry and fallback
`#d3d7cf`; int values formatted as literal hex. -/
def fgColor : ColorVal → String
  | ColorVal.str s => (COLORS s).getD ((COLORS ("bright" ++ s)).getD "#d3d7cf")
  | ColorVal.int n => hex06 n

/-- The background color resolution of `char_to_html` (lines 51-57): same
lookup but with fallback `#000000`. -/
def bgColor : ColorVal → String
  | ColorVal.str s => (COLORS s).getD ((COLORS ("bright" ++ s)).getD "#000000")
  | ColorVal.int n => hex06 n

/-- The style list built by `char_to_html` (lines 38-61). -/
def stylesOf (c : PyChar) : List String :=
  (if pyTruthy c.fg = true ∧ c.fg ≠ ColorVal.str "default"
     then ["color:" ++ fgColor c.fg] else [])
  ++ (if pyTruthy c.bg = true ∧ c.bg ≠ ColorVal.str "default"
     then ["background-color:" ++ bgColor c.bg] else [])
  ++ (if c.bold then ["font-weight:bold"] else [])

/-- The HTML escaping of `char_to_html` (lines 63-70): exactly the three
characters lt, gt and amp are replaced by named entities. -/
def escape (data : String) : String :=
  if data = "<" then "&lt;"
  else if data = ">" then "&gt;"
  else if data = "&" then "&amp;"
  else data

/-- `char_to_html` (lines 33-74): a plain default space is emitted bare;
otherwise the escaped glyph, wrapped in a styled span iff the style list
is nonempty. -/
def char_to_html (c : PyChar) : String :=
  if c.data = " " ∧ c.fg = ColorVal.str "default" ∧ c.bg = ColorVal.str "default" then " "
  else if stylesOf c ≠ [] then
    "<span style=\"" ++ String.intercalate ";" (stylesOf c) ++ "\">" ++ escape c.data ++ "</span>"
  else escape c.data

/-- The scan condition of `screen_to_html` line 88:
`line[x].data != ' ' or line[x].bg != 'default'` — note that the
foreground is not inspected. -/
def scanHit (line : Nat → PyChar) (x : Nat) : Prop :=
  (line x).data ≠ " " ∨ (line x).bg ≠ ColorVal.str "default"

instance (line : Nat → PyChar) (x : Nat) : Decidable (scanHit line x) := by
  unfold scanHit; infer_instance

/-- The cut-point scan of `screen_to_html` (lines 85-89): the fold keeps
the last column whose cell has a non-space glyph or a non-default
background (the foreground is not inspected), starting from 0. -/
def lastChar (line : Nat → PyChar) (columns : Nat) : Nat :=
  (List.range columns).foldl (fun acc x => if scanHit line x then x else acc) 0

/-- The cut-point as the specification words it: the last column whose
cell differs from a blank default cell in glyph, foreground or
background.  This follows the spec's sentence, for comparison with
`lastChar`, which is translated from the source. -/
def specLastChar (line : Nat → PyChar) (columns : Nat) : Nat :=
  (List.range columns).foldl
    (fun acc x =>
      if (line x).data ≠ " " ∨ (line x).fg ≠ ColorVal.str "default"
          ∨ (line x).bg ≠ ColorVal.str "default" then x else acc) 0

/-- One row of `screen_to_html` (lines 91-96): emit cells 0..last_char and
right-strip the resulting markup string. -/
def rowString (screen : Screen) (y : Nat) : String :=
  pyRstrip (strJoin
    ((List.range (lastChar (screen.buffer y) screen.columns + 1)).map
      (fun x => char_to_html (screen.buffer y x))))

/-- The `lines` list accumulated by `screen_to_html` (lines 79-98): one
entry per row whose rendered string is nonempty (`if line_str:`). -/
def screenRows (screen : Screen) : List String :=
  ((List.range screen.lines).map (fun y => rowString screen y)).filter (fun s => s != "")

/-- The trailing-blank-line removal loop shared by both backends
(`while lines and not lines[-1].strip(): lines.pop()`). -/
def dropTrailingBlank (ls : List String) : List String :=
  (ls.reverse.dropWhile (fun s => pyStrip s == "")).reverse

/-- `screen_to_html` (lines 77-104). -/
def screen_to_html (screen : Screen) : String :=
  String.intercalate "\n" (dropTrailingBlank (screenRows screen))

/-- One row of pyte's `screen.display`: the row's glyphs concatenated, one
per column (pyte's documented rendering of a buffer row). -/
def displayRow (screen : Screen) (y : Nat) : String :=
  strJoin ((List.range screen.columns).map (fun x => (screen.buffer y x).data))

/-- The `lines` list of the plain-text branch of `clean_log` (lines
161-165): each display row right-stripped, blank rows skipped. -/
def textRows (screen : Screen) : List String :=
  ((List.range screen.lines).map (fun y => pyRstrip (displayRow screen y))).filter
    (fun s => s != "")

/-- The plain-text rendering of `clean_log` (lines 159-168). -/
def render_text (screen : Screen) : String :=
  String.intercalate "\n" (dropTrailingBlank (textRows screen))

/-- The terminal playback engine: given the screen dimensions passed to
`pyte.Screen(columns, lines)` and the (header-stripped) raw bytes fed to
`pyte.Stream`, produce the final screen.  The engine itself is the
external pyte dependency, so it is kept abstract. -/
def Engine : Type := Nat → Nat → List Nat → Screen

/-- Modelled from the spec: `pyte.Screen(columns, lines)` creates a grid
of exactly the given fixed dimensions with every cell at the default
attributes (spec sections 3 and 4.1); the constructor is part of the
external pyte dependency. -/
def newScreen (columns lines : Nat) : Screen :=
  ⟨lines, columns, fun _ _ => defaultChar⟩

/-- Modelled from the spec: cursor advance after writing a glyph (spec
section 4.1) — the cursor moves one column; on reaching the last column
it wraps to the first column of the next row, and the working region
scrolls only when the bottom row is exceeded.  Returns the new cursor
position and whether a scroll occurred. -/
def advanceCursor (columns lines r c : Nat) : (Nat × Nat) × Bool :=
  if c + 1 < columns then ((r, c + 1), false)
  else if r + 1 < lines then ((r + 1, 0), false)
  else ((r, 0), true)

/-- The header-line removal of `clean_log` (lines 119-123): drop the raw
bytes up to and including the first newline, or nothing when no newline
exists. -/
def dropHeader (data : List Nat) : List Nat :=
  match data.findIdx? (fun b => b == 10) with
  | some i => data.drop (i + 1)
  | none => data

/-- The fixed HTML shell of `clean_log` (lines 133-158), up to the
rendered fragment. -/
def htmlDocPre : String :=
  "<!DOCTYPE html>\n<html>\n<head>\n<meta charset=\"UTF-8\">\n<title>Claude Session Log</title>\n<style>\nbody \x7b\n    background-color: #1e1e1e;\n    color: #d4d4d4;\n    font-family: \x27Fira Code\x27, \x27Consolas\x27, \x27Monaco\x27, monospace;\n    font-size: 14px;\n    padding: 20px;\n    margin: 0;\n\x7d\npre \x7b\n    white-space: pre-wrap;\n    word-wrap: break-word;\n    margin: 0;\n    line-height: 1.4;\n\x7d\n</style>\n</head>\n<body>\n<pre>"

/-- The fixed HTML shell after the rendered fragment. -/
def htmlDocSuf : String := "</pre>\n</body>\n</html>"

/-- The complete HTML document emitted by the html branch of `clean_log`. -/
def htmlDocument (content : String) : String := htmlDocPre ++ content ++ htmlDocSuf

/-- `clean_log` (lines 107-177): read the raw log from the file system
(`none` meaning the read raises, which escapes `clean_log` uncaught),
strip the header line, play the bytes through a 200x10000 screen, render
as HTML or text, and either write to the output file (printing a notice)
or print the result.  Returns the output string, the files written and
the lines printed to stdout. -/
def clean_log (engine : Engine) (fs : String → Option (List Nat)) (input_file : String)
    (output_file : Option String) (html : Bool) :
    Except String (String × List (String × String) × List String) :=
  match fs input_file with
  | none => Except.error ("No such file or directory: " ++ input_file)
  | some data =>
    let screen := engine 200 10000 (dropHeader data)
    let output := if html then htmlDocument (screen_to_html screen) else render_text screen
    match output_file with
    | some o => Except.ok (output, [(o, output)], ["Written to: " ++ o])
    | none => Except.ok (output, [], [output])

/-- The outcome of running `main` (lines 180-201): normal completion with
its stdout lines and written files, the explicit usage `sys.exit(1)`, or
an uncaught Python exception (which also terminates the process with a
non-zero status). -/
inductive MainResult where
  | ok (stdout : List String) (written : List (String × String))
  | usageError
  | uncaught (msg : String)
deriving DecidableEq

/-- The process exit status of a `MainResult`. -/
def exitCode : MainResult → Nat
  | MainResult.ok _ _ => 0
  | MainResult.usageError => 1
  | MainResult.uncaught _ => 1

/-- The argument loop of `main` (lines 191-195): `--html` sets the flag,
any other argument becomes the output file (the last one wins). -/
def parseArgs (rest : List String) : Option String × Bool :=
  rest.foldl (fun acc arg => if arg = "--html" then (acc.1, true) else (some arg, acc.2))
    (none, false)

/-- Python `str.endswith`. -/
def pyEndsWith (s suf : String) : Bool := suf.data.isSuffixOf s.data

/-- `main` of `claude-log-clean.py` (lines 180-201): usage exit when the
input argument is missing; otherwise parse the options, auto-select HTML
when the output name ends in `.html`, and run `clean_log`. -/
def pyMain (engine : Engine) (fs : String → Option (List Nat)) (argv : List String) : MainResult :=
  if argv.length < 2 then MainResult.usageError
  else
    let input_file := argv.getD 1 ""
    let parsed := parseArgs (argv.drop 2)
    let html := parsed.2 || (match parsed.1 with
      | some o => pyEndsWith o ".html"
      | none => false)
    match clean_log engine fs input_file parsed.1 html with
    | Except.error e => MainResult.uncaught e
    | Except.ok (_, written, prints) => MainResult.ok prints written

/-- A file on the server's disk: its text content and modification time. -/
structure FileInfo where
  content : String
  mtime : Nat
deriving DecidableEq

/-- The server's view of the log directory: the `.log` captures and the
pre-converted `.html` artifacts, each with content and mtime. -/
structure ServerFs where
  logs : String → Option FileInfo
  htmls : String → Option FileInfo

/-- Python `str.replace(pat, rep)` on character lists, structurally
recursive on a fuel argument: every step consumes at least one character
of the scanned list, so fuel equal to its length never runs out. -/
def replaceAllAux : Nat → List Char → List Char → List Char → List Char
  | 0, s, _, _ => s
  | Nat.succ fuel, s, pat, rep =>
    match s with
    | [] => []
    | c :: rest =>
      if pat ≠ [] ∧ pat.isPrefixOf (c :: rest) then
        rep ++ replaceAllAux fuel ((c :: rest).drop pat.length) pat rep
      else c :: replaceAllAux fuel rest pat rep

/-- Python `str.replace`: replace every occurrence, scanning left to
right. -/
def pyReplace (s pat rep : String) : String :=
  ⟨replaceAllAux s.data.length s.data pat.data rep.data⟩

/-- Lookup in the in-memory `html_cache` dict, modelled as an association
list (new entries are prepended, so the first match is the live one). -/
def cacheLookup : List (String × String) → String → Option String
  | [], _ => none
  | (k, v) :: rest, key => if k = key then some v else cacheLookup rest key

/-- The cache key of `convert_log_to_html` (line 95):
`f"{logfile}:{mtime}"`. -/
def cacheKey (logfile : String) (mtime : Nat) : String :=
  logfile ++ ":" ++ toString mtime

/-- The degraded error page of `convert_log_to_html` (line 113). -/
def errorPage (msg : String) : String :=
  "<html><body><pre>Error converting log: " ++ msg ++ "</pre></body></html>"

/-- The outcome of the subprocess invocation of the cleaning script
(lines 101-112): exit status 0 with the rendered HTML on stdout, a
non-zero exit status, or a raised exception (e.g. a timeout).  On
success the stdout is the deterministic render of the log's content,
written `renderFn content`. -/
inductive RenderOutcome where
  | ok
  | fail
  | exn (msg : String)

/-- The cache-and-subprocess tail of `convert_log_to_html` (lines
93-115): serve a cache hit for the key built from the current mtime,
otherwise run the subprocess — caching and returning its output on
success, returning `none` on a non-zero exit, and returning the degraded
error page when it raises. -/
def convertViaCache (renderFn : String → String) (oc : RenderOutcome)
    (cache : List (String × String)) (logfile : String) (log : FileInfo) :
    Option String × List (String × String) :=
  match cacheLookup cache (cacheKey logfile log.mtime) with
  | some h => (some h, cache)
  | none =>
    match oc with
    | RenderOutcome.ok =>
      (some (renderFn log.content),
        (cacheKey logfile log.mtime, renderFn log.content) :: cache)
    | RenderOutcome.fail => (none, cache)
    | RenderOutcome.exn msg => (some (errorPage msg), cache)

/-- `convert_log_to_html` (lines 77-115): `none` when the log does not
exist; a pre-converted `.html` artifact served only when its mtime is not
older than the log's; otherwise the cache-and-subprocess path. -/
def convert_log_to_html (renderFn : String → String) (oc : RenderOutcome) (fs : ServerFs)
    (cache : List (String × String)) (logfile : String) :
    Option String × List (String × String) :=
  match fs.logs logfile with
  | none => (none, cache)
  | some log =>
    match fs.htmls (pyReplace logfile ".log" ".html") with
    | some h =>
      if log.mtime ≤ h.mtime then (some h.content, cache)
      else convertViaCache renderFn oc cache logfile log
    | none => convertViaCache renderFn oc cache logfile log

/-- The HTTP response of the `/log/<filename>` route. -/
inductive HttpResult where
  | badRequest
  | notFound
  | ok (body : String)
deriving DecidableEq

/-- Python's substring test `needle in hay` on character lists. -/
def hasInfix : List Char → List Char → Bool
  | [], needle => needle.isEmpty
  | c :: rest, needle => needle.isPrefixOf (c :: rest) || hasInfix rest needle

/-- `view_log` (lines 231-246): reject filenames containing a slash or
`..` or not ending in `.log` with 400 before touching the file system;
otherwise convert, turning `none` into 404. -/
def view_log (renderFn : String → String) (oc : RenderOutcome) (fs : ServerFs)
    (cache : List (String × String)) (filename : String) :
    HttpResult × List (String × String) :=
  if filename.data.contains '/' || hasInfix filename.data ['.', '.'] then
    (HttpResult.badRequest, cache)
  else if !pyEndsWith filename ".log" then (HttpResult.badRequest, cache)
  else
    match convert_log_to_html renderFn oc fs cache filename with
    | (none, c) => (HttpResult.notFound, c)
    | (some h, c) => (HttpResult.ok h, c)

/-- Python `str.startswith`. -/
def pyStartsWith (s pre : String) : Bool := pre.data.isPrefixOf s.data

/-- A string with no colon, so that it can be recovered unambiguously
from the front of a `cacheKey`. -/
def noColon (s : String) : Prop := ':' ∉ s.data

/-- The freshness invariant of the in-memory cache: every entry was
stored under a key `f ++ ":" ++ t` and holds the deterministic render of
the content the log file `f` had when its modification time printed as
`t` (`contentAt f t`).  `convert_log_to_html` both relies on this and
preserves it. -/
def CacheConsistent (renderFn : String → String) (contentAt : String → String → String)
    (cache : List (String × String)) : Prop :=
  ∀ kv ∈ cache, ∃ f t, noColon f ∧ kv.1 = f ++ ":" ++ t ∧ kv.2 = renderFn (contentAt f t)

/-- Example cell: the glyph `a` with default attributes. -/
def exAChar : PyChar := ⟨"a", ColorVal.str "default", ColorVal.str "default", false⟩

/-- Example cell: the glyph `b` with default attributes. -/
def exBChar : PyChar := ⟨"b", ColorVal.str "default", ColorVal.str "default", false⟩

/-- Example screen: three one-column rows, the middle one fully blank. -/
def exScreen1 : Screen :=
  ⟨3, 1, fun y _ => if y = 0 then exAChar else if y = 2 then exBChar else defaultChar⟩

/-- Example row: a default `a` followed by a space whose only non-default
attribute is a red foreground. -/
def exRow2 : Nat → PyChar :=
  fun x => if x = 0 then exAChar else ⟨" ", ColorVal.str "red", ColorVal.str "default", false⟩

/-- Example screen holding `exRow2` as its single row. -/
def exScreen2 : Screen := ⟨1, 2, fun _ x => exRow2 x⟩

/-- Example server directory: one log file, no pre-converted artifacts. -/
def exFs1 : ServerFs :=
  ⟨fun f => if f = "a.log" then some ⟨"data", 3⟩ else none, fun _ => none⟩

/-- Example deterministic render function. -/
def idFn : String → String := fun s => s

/-- Example content history: every version of every log reads `data`. -/
def exContentAt : String → String → String := fun _ _ => "data"

/-- Example engine whose screens carry the dimensions it was given. -/
def exEngine : Engine := fun c l _ => newScreen c l

/-- Example engine producing an empty screen, keeping renders small. -/
def exEngineSmall : Engine := fun _ _ _ => ⟨0, 0, fun _ _ => defaultChar⟩

/-- Example empty file system for the command line tool. -/
def fsNone : String → Option (List Nat) := fun _ => none

/-- Example file system with a single input log for the command line
tool: the byte 72, a newline, then the byte 65. -/
def fsIn : String → Option (List Nat) :=
  fun f => if f = "in.log" then some [72, 10, 65] else none

/-- Example cell used as a styled witness for the wrapping criterion. -/
def exC3Char : PyChar := ⟨"x", ColorVal.str "red", ColorVal.str "default", true⟩

/-! ## Helper lemmas -/

theorem lastChar_succ (line : Nat → PyChar) (n : Nat) :
    lastChar line (n + 1) = if scanHit line n then n else lastChar line n := by
  unfold lastChar
  rw [List.range_succ, List.foldl_append]
  simp

theorem lastChar_eq_zero (line : Nat → PyChar) (cols : Nat)
    (h : ∀ x, x < cols → ¬scanHit line x) : lastChar line cols = 0 := by
  induction cols with
  | zero => rfl
  | succ n ih =>
    rw [lastChar_succ, if_neg (h n (Nat.lt_succ_self n))]
    exact ih (fun x hx => h x (Nat.lt_succ_of_lt hx))

theorem lastChar_is_max (line : Nat → PyChar) :
    ∀ cols x, x < cols → scanHit line x →
      scanHit line (lastChar line cols) ∧ lastChar line cols < cols ∧
        ∀ z, z < cols → scanHit line z → z ≤ lastChar line cols := by
  intro cols
  induction cols with
  | zero => intro x hx _; exact absurd hx (Nat.not_lt_zero x)
  | succ n ih =>
    intro x hx hQ
    rw [lastChar_succ]
    by_cases hn : scanHit line n
    · rw [if_pos hn]
      exact ⟨hn, Nat.lt_succ_self n, fun z hz _ => Nat.lt_succ_iff.mp hz⟩
    · rw [if_neg hn]
      have hx' : x < n := by
        rcases Nat.lt_succ_iff_lt_or_eq.mp hx with h | h
        · exact h
        · exact absurd (h ▸ hQ) hn
      obtain ⟨h1, h2, h3⟩ := ih x hx' hQ
      refine ⟨h1, Nat.lt_succ_of_lt h2, fun z hz hQz => ?_⟩
      rcases Nat.lt_succ_iff_lt_or_eq.mp hz with h | h
      · exact h3 z h hQz
      · exact absurd (h ▸ hQz) hn

theorem filter_map_skip (f : Nat → String) (y : Nat) (hf : f y = "") :
    ∀ l : List Nat, (l.map f).filter (fun s => s != "") =
      ((l.filter (fun i => i != y)).map f).filter (fun s => s != "") := by
  intro l
  induction l with
  | nil => rfl
  | cons a l ih =>
    simp only [List.map_cons, List.filter_cons]
    by_cases ha : a = y
    · subst ha
      simp [hf, ih]
    · simp [ha, List.filter_cons, ih]

theorem scanHit_default {line : Nat → PyChar} {x : Nat} (h : line x = defaultChar) :
    ¬scanHit line x := by
  simp [scanHit, h, defaultChar]

theorem charToHtml_default : char_to_html defaultChar = " " := by decide

theorem flatten_replicate (n : Nat) (c : Char) :
    (List.replicate n [c]).flatten = List.replicate n c := by
  induction n with
  | zero => rfl
  | succ n ih => simp [List.replicate_succ, ih]

theorem dropWhile_replicate_space (n : Nat) :
    (List.replicate n ' ').dropWhile Char.isWhitespace = [] := by
  induction n with
  | zero => rfl
  | succ n ih =>
    have h : ' '.isWhitespace = true := by decide
    simp [List.replicate_succ, List.dropWhile_cons, h, ih]

theorem pyRstrip_spaces (n : Nat) : pyRstrip ⟨List.replicate n ' '⟩ = "" := by
  unfold pyRstrip
  rw [show (String.mk (List.replicate n ' ')).data = List.replicate n ' ' from rfl,
    List.reverse_replicate, dropWhile_replicate_space]
  rfl

theorem displayRow_blank (screen : Screen) (y : Nat)
    (h : ∀ x, screen.buffer y x = defaultChar) : pyRstrip (displayRow screen y) = "" := by
  have hmap : (List.range screen.columns).map (fun x => (screen.buffer y x).data) =
      List.replicate screen.columns " " := by
    have h1 : ((List.range screen.columns).map fun x => (screen.buffer y x).data) =
        (List.range screen.columns).map (fun _ => " ") :=
      List.map_congr_left (fun x _ => by rw [h x]; rfl)
    rw [h1, List.map_const', List.length_range]
  unfold displayRow strJoin
  rw [hmap]
  have h2 : (List.replicate screen.columns " ").map String.data =
      List.replicate screen.columns [' '] := by
    rw [List.map_replicate]
  rw [h2, flatten_replicate]
  exact pyRstrip_spaces _

theorem rowString_blank (screen : Screen) (y : Nat)
    (h : ∀ x, screen.buffer y x = defaultChar) : rowString screen y = "" := by
  have hz : lastChar (screen.buffer y) screen.columns = 0 :=
    lastChar_eq_zero _ _ (fun x _ => scanHit_default (h x))
  unfold rowString
  rw [hz]
  simp only [Nat.zero_add]
  rw [show List.range 1 = [0] from rfl]
  simp only [List.map_cons, List.map_nil]
  rw [h 0, charToHtml_default]
  decide

theorem ite_singleton_eq_nil {α} (P : Prop) [Decidable P] (a : α) :
    (if P then [a] else []) = [] ↔ ¬P := by
  split_ifs with h <;> simp [h]

theorem stylesOf_eq_nil_iff (c : PyChar) :
    stylesOf c = [] ↔ (pyTruthy c.fg = false ∨ c.fg = ColorVal.str "default") ∧
      (pyTruthy c.bg = false ∨ c.bg = ColorVal.str "default") ∧ c.bold = false := by
  unfold stylesOf
  simp only [List.append_eq_nil, ite_singleton_eq_nil, not_and_or, not_not,
    Bool.not_eq_true]
  tauto

theorem pyStartsWith_append_right (s t p : String) (h : pyStartsWith s p = true) :
    pyStartsWith (s ++ t) p = true := by
  unfold pyStartsWith at h ⊢
  rw [show (s ++ t).data = s.data ++ t.data from rfl]
  rw [List.isPrefixOf_iff_prefix] at h ⊢
  exact h.trans (List.prefix_append _ _)

theorem escape_not_span (d : String) (h : d.length = 1) :
    pyStartsWith (escape d) "<span" = false := by
  unfold escape
  split_ifs with h1 h2 h3
  · decide
  · decide
  · decide
  · obtain ⟨ch, hch⟩ := List.length_eq_one.mp h
    unfold pyStartsWith
    rw [hch, show ("<span" : String).data = ['<', 's', 'p', 'a', 'n'] from rfl]
    simp [List.isPrefixOf]

/-! ## Claims C1 to C5 -/

/-- Claim C1, counterexample: on a grid whose middle row is fully blank
between two non-blank rows, `screen_to_html` does NOT preserve the blank
row as an empty line — its output is `a\nb`, identical to the text
backend's, with no empty interior line, contradicting the claimed
text/HTML asymmetry. -/
theorem c1_html_interior_blank_cex :
    screen_to_html exScreen1 = "a\nb" ∧ render_text exScreen1 = "a\nb" ∧
      screen_to_html exScreen1 ≠ "a\n\nb" := by decide

/-- Claim C1 (amended): BOTH backends omit a fully blank row wherever it
sits.  A fully blank row renders to the empty string in each backend, and
each backend's line list equals the one computed with that row removed
from the grid, so interior blank rows are dropped from the HTML output
exactly as from the text output (not only trailing runs). -/
theorem c1_blank_rows_dropped_in_both_backends (screen : Screen) (y : Nat)
    (hblank : ∀ x, screen.buffer y x = defaultChar) :
    rowString screen y = "" ∧
    pyRstrip (displayRow screen y) = "" ∧
    screenRows screen =
      (((List.range screen.lines).filter (fun i => i != y)).map
        (fun i => rowString screen i)).filter (fun s => s != "") ∧
    textRows screen =
      (((List.range screen.lines).filter (fun i => i != y)).map
        (fun i => pyRstrip (displayRow screen i))).filter (fun s => s != "") := by
  refine ⟨rowString_blank screen y hblank, displayRow_blank screen y hblank, ?_, ?_⟩
  · exact filter_map_skip (fun i => rowString screen i) y (rowString_blank screen y hblank) _
  · exact filter_map_skip (fun i => pyRstrip (displayRow screen i)) y
      (displayRow_blank screen y hblank) _

/-- Claim C1, witness: the amended theorem applied to the concrete grid
`exScreen1` at its blank middle row. -/
theorem c1_blank_rows_witness :
    rowString exScreen1 1 = "" ∧ screenRows exScreen1 = ["a", "b"] :=
  ⟨(c1_blank_rows_dropped_in_both_backends exScreen1 1 (fun _ => rfl)).1, by decide⟩

/-- Claim C2, counterexample: the HTML cut-point scan ignores the
foreground.  In `exRow2` the cell at column 1 is a space with a red
foreground and default background — it differs from a blank default cell,
so the claim puts the cut at 1 — yet the code's scan yields 0 and the
rendered row omits the styled space (`screen_to_html` gives just `a`). -/
theorem c2_foreground_ignored_cex :
    lastChar exRow2 2 = 0 ∧ specLastChar exRow2 2 = 1 ∧ (exRow2 1).data = " " ∧
      (exRow2 1).fg ≠ ColorVal.str "default" ∧ (exRow2 1).bg = ColorVal.str "default" ∧
      screen_to_html exScreen2 = "a" ∧ char_to_html (exRow2 1) ≠ " " := by decide

/-- Claim C2 (amended): the HTML backend's cut-point is the last column
whose cell has a non-space glyph or a non-default BACKGROUND — the
foreground is not consulted — defaulting to 0 when no column qualifies,
and the row's output is built from exactly the cells up to that index,
omitting every cell strictly beyond it. -/
theorem c2_cutpoint_scans_glyph_and_bg_only (line : Nat → PyChar) (cols : Nat) :
    ((∃ x, x < cols ∧ scanHit line x) →
      scanHit line (lastChar line cols) ∧ lastChar line cols < cols ∧
        ∀ z, z < cols → scanHit line z → z ≤ lastChar line cols) ∧
    ((∀ x, x < cols → ¬scanHit line x) → lastChar line cols = 0) ∧
    ∀ (screen : Screen) (y : Nat), screen.buffer y = line → screen.columns = cols →
      rowString screen y =
        pyRstrip (strJoin ((List.range (lastChar line cols + 1)).map
          (fun x => char_to_html (line x)))) := by
  refine ⟨?_, lastChar_eq_zero line cols, ?_⟩
  · rintro ⟨x, hx, hQ⟩
    exact lastChar_is_max line cols x hx hQ
  · rintro screen y hb hc
    unfold rowString
    rw [hb, hc]

/-- Claim C2, witness: the amended theorem applied to the concrete row
`exRow2`, whose column 0 qualifies for the scan. -/
theorem c2_cutpoint_witness : lastChar exRow2 2 < 2 ∧ lastChar exRow2 2 = 0 :=
  ⟨((c2_cutpoint_scans_glyph_and_bg_only exRow2 2).1 ⟨0, by decide, by decide⟩).2.1,
    by decide⟩

/-- Claim C3, counterexample: a non-space glyph with all-default
attributes is emitted bare, NOT wrapped in a styled element, and a BOLD
default space also takes the early bare-space return — both contradict
the claim that every cell other than a plain default space is wrapped. -/
theorem c3_default_glyph_unwrapped_cex :
    char_to_html ⟨"a", ColorVal.str "default", ColorVal.str "default", false⟩ = "a" ∧
    char_to_html ⟨" ", ColorVal.str "default", ColorVal.str "default", true⟩ = " " ∧
    pyStartsWith "a" "<span" = false ∧ pyStartsWith " " "<span" = false := by decide

/-- Claim C3 (amended): `char_to_html` wraps a cell in a styled span
exactly when the cell is not a default-colored space (bold is ignored by
that early test) AND its style list is nonempty; the style list is empty
exactly when the foreground is falsy or default, the background is falsy
or default, and bold is unset — so default-attribute glyphs and bold
default spaces are emitted unwrapped. -/
theorem c3_wrapped_iff_styled (c : PyChar) (h : c.data.length = 1) :
    (pyStartsWith (char_to_html c) "<span" = true ↔
      ¬(c.data = " " ∧ c.fg = ColorVal.str "default" ∧ c.bg = ColorVal.str "default") ∧
        stylesOf c ≠ []) ∧
    (stylesOf c = [] ↔
      (pyTruthy c.fg = false ∨ c.fg = ColorVal.str "default") ∧
        (pyTruthy c.bg = false ∨ c.bg = ColorVal.str "default") ∧ c.bold = false) := by
  refine ⟨?_, stylesOf_eq_nil_iff c⟩
  unfold char_to_html
  by_cases he : c.data = " " ∧ c.fg = ColorVal.str "default" ∧ c.bg = ColorVal.str "default"
  · rw [if_pos he]
    have h1 : pyStartsWith " " "<span" = false := by decide
    simp [h1, he]
  · rw [if_neg he]
    by_cases hs : stylesOf c ≠ []
    · rw [if_pos hs]
      have h1 : pyStartsWith ("<span style=\"" ++ String.intercalate ";" (stylesOf c)
          ++ "\">" ++ escape c.data ++ "</span>") "<span" = true := by
        apply pyStartsWith_append_right
        apply pyStartsWith_append_right
        apply pyStartsWith_append_right
        apply pyStartsWith_append_right
        decide
      simp [h1, he, hs]
    · rw [if_neg hs]
      have h1 : pyStartsWith (escape c.data) "<span" = false := escape_not_span c.data h
      simp [h1, hs]

/-- Claim C3, witness: the amended theorem applied to a styled concrete
cell, which is indeed span-wrapped. -/
theorem c3_wrapped_witness :
    pyStartsWith (char_to_html exC3Char) "<span" = true ∧ stylesOf exC3Char ≠ [] :=
  ⟨((c3_wrapped_iff_styled exC3Char (by decide)).1).mpr ⟨by decide, by decide⟩, by decide⟩

/-- Claim C4, counterexample: for an unrecognized color name the fallback
hex differs by role — `#d3d7cf` in the foreground position but `#000000`
in the background position — so the mapped value is not role-independent
for every ColorSpec, contrary to the claim. -/
theorem c4_role_dependent_fallback_cex :
    fgColor (ColorVal.str "orange") = "#d3d7cf" ∧
    bgColor (ColorVal.str "orange") = "#000000" ∧
    fgColor (ColorVal.str "orange") ≠ bgColor (ColorVal.str "orange") := by decide

/-- Claim C4 (amended): the color mapping is a pure function of the
ColorVal (so repeated calls agree), and the foreground and background
roles produce the identical hex for every int (256-color / 24-bit) value
and for every name found in the palette directly or via its
`bright`-prefixed form; only the fallback for unrecognized names is
role-dependent. -/
theorem c4_color_mapping_role_agreement (v : ColorVal) :
    (∀ n, v = ColorVal.int n → fgColor v = bgColor v) ∧
    (∀ s, v = ColorVal.str s →
      ((COLORS s).isSome = true ∨ (COLORS ("bright" ++ s)).isSome = true) →
        fgColor v = bgColor v) := by
  constructor
  · rintro n rfl
    rfl
  · rintro s rfl h
    unfold fgColor bgColor
    rcases hc : COLORS s with _ | c
    · rcases hb : COLORS ("bright" ++ s) with _ | c2
      · rcases h with h | h
        · rw [hc] at h
          simp at h
        · rw [hb] at h
          simp at h
      · simp [hc, hb]
    · simp [hc]

/-- Claim C4, witness: the amended theorem applied to the palette name
`red`, mapped identically in both roles. -/
theorem c4_color_mapping_witness :
    fgColor (ColorVal.str "red") = bgColor (ColorVal.str "red") ∧
      (COLORS "red").isSome = true :=
  ⟨(c4_color_mapping_role_agreement (ColorVal.str "red")).2 "red" rfl (Or.inl (by decide)),
    by decide⟩

/-- Claim C5 (confirmed): the glyph escaping of the HTML backend changes
a single-character glyph exactly when it is one of lt, gt, amp — mapped
to the named entities — and passes every other character through
unescaped, the double quotation mark included (also end to end through
`char_to_html`). -/
theorem c5_escape_exactly_three (c : Char) :
    (escape (String.mk [c]) ≠ String.mk [c] ↔ (c = '<' ∨ c = '>' ∨ c = '&')) ∧
    escape "<" = "&lt;" ∧ escape ">" = "&gt;" ∧ escape "&" = "&amp;" ∧
    escape "\"" = "\"" ∧
    char_to_html ⟨"\"", ColorVal.str "default", ColorVal.str "default", false⟩ = "\"" := by
  refine ⟨⟨?_, ?_⟩, by decide, by decide, by decide, by decide, by decide⟩
  · intro hne
    by_contra hall
    push_neg at hall
    obtain ⟨h1, h2, h3⟩ := hall
    apply hne
    have e1 : String.mk [c] ≠ "<" := by
      intro he
      apply h1
      have hd : [c] = ['<'] := congrArg String.data he
      injection hd with hc _
    have e2 : String.mk [c] ≠ ">" := by
      intro he
      apply h2
      have hd : [c] = ['>'] := congrArg String.data he
      injection hd with hc _
    have e3 : String.mk [c] ≠ "&" := by
      intro he
      apply h3
      have hd : [c] = ['&'] := congrArg String.data he
      injection hd with hc _
    simp [escape, e1, e2, e3]
  · rintro (rfl | rfl | rfl) <;> decide

/-! ## Claims C6, C9, C10 -/

/-- Claim C6, counterexample: with the required input argument PRESENT
but the input file nonexistent, the uncaught exception from the file
read terminates the process with a non-zero status — contradicting the
claim that the status is non-zero only when the input argument is
missing. -/
theorem c6_nonzero_exit_cex :
    exitCode (pyMain exEngineSmall fsNone ["claude-log-clean.py", "session.log"]) = 1 ∧
      2 ≤ (["claude-log-clean.py", "session.log"] : List String).length := by decide

/-- Claim C6 (amended): an output path ending in `.html` auto-selects
HTML mode without the `--html` flag; with no output path the result goes
to standard output; and the exit status is zero exactly when the input
argument is present AND the input file read succeeds — it is non-zero
both for a missing argument (the usage exit) and for an unreadable or
nonexistent input file (an uncaught exception). -/
theorem c6_cli_contract (engine : Engine) (fs : String → Option (List Nat)) :
    (∀ argv, exitCode (pyMain engine fs argv) = 0 ↔
      2 ≤ argv.length ∧ (fs (argv.getD 1 "")).isSome = true) ∧
    (∀ d i o p, fs i = some d → pyEndsWith o ".html" = true →
      pyMain engine fs [p, i, o] = MainResult.ok ["Written to: " ++ o]
        [(o, htmlDocument (screen_to_html (engine 200 10000 (dropHeader d))))]) ∧
    (∀ d i p, fs i = some d →
      pyMain engine fs [p, i] =
        MainResult.ok [render_text (engine 200 10000 (dropHeader d))] []) := by
  refine ⟨?_, ?_, ?_⟩
  · intro argv
    by_cases hlen : argv.length < 2
    · unfold pyMain
      rw [if_pos hlen]
      constructor
      · intro h
        exact absurd h (by decide)
      · rintro ⟨h2, _⟩
        exact absurd hlen (by omega)
    · unfold pyMain
      rw [if_neg hlen]
      unfold clean_log
      dsimp only
      rcases hfs : fs (argv.getD 1 "") with _ | d
      · simp [exitCode]
      · rcases ho : (parseArgs (argv.drop 2)).1 with _ | o <;>
          · simp [exitCode]
            omega
  · intro d i o p hfs hend
    have hoh : o ≠ "--html" := by
      intro he
      rw [he] at hend
      exact absurd hend (by decide)
    have h3 : ¬([p, i, o].length < 2) := by simp
    unfold pyMain
    rw [if_neg h3]
    simp [parseArgs, hoh, hend, clean_log, hfs, List.getD]
  · intro d i p hfs
    have h3 : ¬([p, i].length < 2) := by simp
    unfold pyMain
    rw [if_neg h3]
    simp [parseArgs, clean_log, hfs, List.getD]

/-- Claim C6, witness: the amended theorem's no-output-path conjunct
applied to a concrete file system and engine: the render is printed to
stdout and no file is written. -/
theorem c6_cli_witness :
    pyMain exEngineSmall fsIn ["p", "in.log"] =
      MainResult.ok [render_text (exEngineSmall 200 10000 (dropHeader [72, 10, 65]))] [] :=
  (c6_cli_contract exEngineSmall fsIn).2.2 [72, 10, 65] "in.log" "p" (by decide)

/-- Claim C9 (confirmed): `clean_log` always creates the virtual screen
with the constants 200 columns and 10000 lines — its result depends on
the playback engine only through the engine's behaviour at exactly those
dimensions, for every input — the grid constructor at those dimensions
yields a 200-column, 10000-row grid, and (modelled from the spec) the
cursor wraps to column 0 exactly when leaving column 199 and the working
region scrolls only when the write is at the bottom row 9999. -/
theorem c9_fixed_grid_dimensions :
    (∀ (e1 e2 : Engine) (fs : String → Option (List Nat)) (i : String)
        (o : Option String) (hflag : Bool),
      (∀ d, e1 200 10000 d = e2 200 10000 d) →
        clean_log e1 fs i o hflag = clean_log e2 fs i o hflag) ∧
    ((newScreen 200 10000).columns = 200 ∧ (newScreen 200 10000).lines = 10000) ∧
    (∀ r c, c < 200 → r < 10000 →
      ((advanceCursor 200 10000 r c).1.2 = 0 ↔ c = 199) ∧
      ((advanceCursor 200 10000 r c).2 = true ↔ (c = 199 ∧ r = 9999))) := by
  refine ⟨?_, ⟨rfl, rfl⟩, ?_⟩
  · intro e1 e2 fs i o hflag h
    unfold clean_log
    rcases hfs : fs i with _ | d
    · rfl
    · dsimp only
      rw [h (dropHeader d)]
  · intro r c hc hr
    unfold advanceCursor
    by_cases h1 : c + 1 < 200
    · rw [if_pos h1]
      constructor <;> simp <;> omega
    · rw [if_neg h1]
      by_cases h2 : r + 1 < 10000
      · rw [if_pos h2]
        constructor <;> simp <;> omega
      · rw [if_neg h2]
        constructor <;> simp <;> omega

/-- Claim C9, witness: the dimension-independence conjunct applied at a
concrete engine, and the wrap conjunct applied at the last column. -/
theorem c9_fixed_grid_witness :
    clean_log exEngineSmall fsIn "in.log" none false =
        clean_log exEngineSmall fsIn "in.log" none false ∧
      (advanceCursor 200 10000 5 199).1.2 = 0 :=
  ⟨c9_fixed_grid_dimensions.1 exEngineSmall exEngineSmall fsIn "in.log" none false
      (fun _ => rfl),
    (c9_fixed_grid_dimensions.2.2 5 199 (by decide) (by decide)).1.mpr rfl⟩

/-- Claim C10 (confirmed): the log-viewing endpoint answers 400 — without
touching the file system or the cache — whenever the filename contains a
slash, contains `..`, or does not end in `.log`; a filename passing all
three checks is handed to conversion, whose `none` result becomes 404 and
whose `some` result is served. -/
theorem c10_view_log_validation (renderFn : String → String) (oc : RenderOutcome)
    (fs : ServerFs) (cache : List (String × String)) (filename : String) :
    ((filename.data.contains '/' = true ∨ hasInfix filename.data ['.', '.'] = true ∨
        pyEndsWith filename ".log" = false) →
      view_log renderFn oc fs cache filename = (HttpResult.badRequest, cache)) ∧
    ((filename.data.contains '/' = false ∧ hasInfix filename.data ['.', '.'] = false ∧
        pyEndsWith filename ".log" = true) →
      view_log renderFn oc fs cache filename =
        ((match (convert_log_to_html renderFn oc fs cache filename).1 with
          | none => HttpResult.notFound
          | some h => HttpResult.ok h),
         (convert_log_to_html renderFn oc fs cache filename).2)) := by
  constructor
  · intro h
    by_cases hc : (filename.data.contains '/' || hasInfix filename.data ['.', '.']) = true
    · unfold view_log
      rw [if_pos hc]
    · have hend : pyEndsWith filename ".log" = false := by
        rcases h with h | h | h
        · have hm : '/' ∈ filename.data := by simpa using h
          exact absurd (by simp [hm]) hc
        · exact absurd (by simp [h]) hc
        · exact h
      unfold view_log
      rw [if_neg hc, hend]
      simp
  · rintro ⟨h1, h2, h3⟩
    have h1m : '/' ∉ filename.data := by simpa using h1
    unfold view_log
    rw [if_neg (by simp [h1m, h2]), h3]
    simp only [Bool.not_true, if_neg]
    rcases hcv : convert_log_to_html renderFn oc fs cache filename with ⟨r, c⟩
    rcases r with _ | v <;> simp

/-- Claim C10, witness: the validation theorem applied to a concrete
path-traversal filename, rejected with the cache untouched. -/
theorem c10_view_log_witness :
    view_log idFn RenderOutcome.ok exFs1 [] "../a.log" = (HttpResult.badRequest, []) :=
  (c10_view_log_validation idFn RenderOutcome.ok exFs1 [] "../a.log").1 (Or.inl (by decide))

/-! ## Claims C7 and C8 -/

theorem cacheLookup_mem (l : List (String × String)) (k v : String)
    (h : cacheLookup l k = some v) : (k, v) ∈ l := by
  induction l with
  | nil => simp [cacheLookup] at h
  | cons kv rest ih =>
    rcases kv with ⟨k1, v1⟩
    by_cases hk : k1 = k
    · rw [show cacheLookup ((k1, v1) :: rest) k = if k1 = k then some v1 else cacheLookup rest k
          from rfl, if_pos hk] at h
      injection h with hv
      subst hk hv
      exact List.mem_cons_self _ _
    · rw [show cacheLookup ((k1, v1) :: rest) k = if k1 = k then some v1 else cacheLookup rest k
          from rfl, if_neg hk] at h
      exact List.mem_cons_of_mem _ (ih h)

theorem splitAtColon :
    ∀ (l1 l2 r1 r2 : List Char), ':' ∉ l1 → ':' ∉ l2 →
      l1 ++ ':' :: r1 = l2 ++ ':' :: r2 → l1 = l2 ∧ r1 = r2 := by
  intro l1
  induction l1 with
  | nil =>
    intro l2 r1 r2 _ h2 heq
    cases l2 with
    | nil =>
      simp only [List.nil_append] at heq
      injection heq with _ hr
      exact ⟨rfl, hr⟩
    | cons b bs =>
      simp only [List.nil_append, List.cons_append] at heq
      injection heq with hb _
      exact absurd (List.mem_cons_self b bs) (hb ▸ h2)
  | cons a as ih =>
    intro l2 r1 r2 h1 h2 heq
    cases l2 with
    | nil =>
      simp only [List.cons_append, List.nil_append] at heq
      injection heq with ha _
      exact absurd (List.mem_cons_self a as) (ha.symm ▸ h1)
    | cons b bs =>
      simp only [List.cons_append] at heq
      injection heq with hab hrest
      obtain ⟨hl, hr⟩ := ih bs r1 r2 (fun hm => h1 (List.mem_cons_of_mem a hm))
        (fun hm => h2 (List.mem_cons_of_mem b hm)) hrest
      exact ⟨by rw [hab, hl], hr⟩

theorem cacheKey_data (f : String) (m : Nat) :
    (cacheKey f m).data = f.data ++ ':' :: (toString m).data := by
  unfold cacheKey
  show (f.data ++ (":" : String).data) ++ (toString m).data = _
  rw [show (":" : String).data = [':'] from rfl, List.append_assoc]
  rfl

/-- Claim C8 (confirmed): when the subprocess render of `view_log`'s
conversion raises, the endpoint still answers 200 with the degraded HTML
page, whose body contains the error text as a substring — no exception
propagates to the caller. -/
theorem c8_conversion_error_degraded_page (renderFn : String → String) (fs : ServerFs)
    (cache : List (String × String)) (filename : String) (log : FileInfo) (msg : String)
    (h1 : filename.data.contains '/' = false)
    (h2 : hasInfix filename.data ['.', '.'] = false)
    (h3 : pyEndsWith filename ".log" = true)
    (hlog : fs.logs filename = some log)
    (hhtml : ∀ h, fs.htmls (pyReplace filename ".log" ".html") = some h →
      h.mtime < log.mtime)
    (hmiss : cacheLookup cache (cacheKey filename log.mtime) = none) :
    (view_log renderFn (RenderOutcome.exn msg) fs cache filename).1 =
      HttpResult.ok (errorPage msg) ∧
    (∃ pre suf, errorPage msg = pre ++ (msg ++ suf)) := by
  have hvc : convertViaCache renderFn (RenderOutcome.exn msg) cache filename log =
      (some (errorPage msg), cache) := by
    unfold convertViaCache
    rw [hmiss]
  have hcv : convert_log_to_html renderFn (RenderOutcome.exn msg) fs cache filename =
      (some (errorPage msg), cache) := by
    unfold convert_log_to_html
    rw [hlog]
    dsimp only
    rcases hh : fs.htmls (pyReplace filename ".log" ".html") with _ | h
    · exact hvc
    · dsimp only
      rw [if_neg (by have := hhtml h hh; omega)]
      exact hvc
  have h1m : '/' ∉ filename.data := by simpa using h1
  constructor
  · unfold view_log
    rw [if_neg (by simp [h1m, h2]), h3]
    simp [hcv]
  · refine ⟨"<html><body><pre>Error converting log: ", "</pre></body></html>", ?_⟩
    unfold errorPage
    rw [String.append_assoc]

/-- Claim C8, witness: a concrete conversion failure on a valid filename
is served as the degraded error page. -/
theorem c8_degraded_page_witness :
    (view_log idFn (RenderOutcome.exn "boom") exFs1 [] "a.log").1 =
      HttpResult.ok (errorPage "boom") :=
  (c8_conversion_error_degraded_page idFn exFs1 [] "a.log" ⟨"data", 3⟩ "boom"
    (by decide) (by decide) (by decide) (by decide) (fun h hh => nomatch hh) rfl).1

theorem keyAppend_data (f t : String) : (f ++ ":" ++ t).data = f.data ++ ':' :: t.data := by
  show (f.data ++ (":" : String).data) ++ t.data = _
  rw [show (":" : String).data = [':'] from rfl, List.append_assoc]
  rfl

/-- Claim C7 (confirmed): `convert_log_to_html` serves the pre-converted
artifact only when the artifact is not older than the log (when it is
older the call behaves exactly as if the artifact were absent); and on
the cache-and-subprocess path, under the invariant that every cache entry
holds the render of the content its keyed log had at its keyed mtime,
every non-error value served is the render of the log's CURRENT content
— the key embeds the current mtime — and the invariant is preserved. -/
theorem c7_cache_freshness (renderFn : String → String)
    (contentAt : String → String → String) (oc : RenderOutcome) (fs : ServerFs)
    (cache : List (String × String)) (logfile : String) (log : FileInfo)
    (hlog : fs.logs logfile = some log)
    (hnc : noColon logfile)
    (hct : contentAt logfile (toString log.mtime) = log.content)
    (hinv : CacheConsistent renderFn contentAt cache) :
    (∀ h, fs.htmls (pyReplace logfile ".log" ".html") = some h → log.mtime ≤ h.mtime →
      convert_log_to_html renderFn oc fs cache logfile = (some h.content, cache)) ∧
    (∀ h, fs.htmls (pyReplace logfile ".log" ".html") = some h → h.mtime < log.mtime →
      convert_log_to_html renderFn oc fs cache logfile =
        convertViaCache renderFn oc cache logfile log) ∧
    ((fs.htmls (pyReplace logfile ".log" ".html") = none ∨
        (∃ h, fs.htmls (pyReplace logfile ".log" ".html") = some h ∧ h.mtime < log.mtime)) →
      ((convert_log_to_html renderFn oc fs cache logfile).1 = none ∨
        (convert_log_to_html renderFn oc fs cache logfile).1 = some (renderFn log.content) ∨
        ∃ msg, oc = RenderOutcome.exn msg ∧
          (convert_log_to_html renderFn oc fs cache logfile).1 = some (errorPage msg)) ∧
      CacheConsistent renderFn contentAt
        (convert_log_to_html renderFn oc fs cache logfile).2) := by
  refine ⟨?_, ?_, ?_⟩
  · intro h hh hm
    unfold convert_log_to_html
    rw [hlog]
    dsimp only
    rw [hh]
    dsimp only
    rw [if_pos hm]
  · intro h hh hm
    unfold convert_log_to_html
    rw [hlog]
    dsimp only
    rw [hh]
    dsimp only
    rw [if_neg (by omega)]
  · intro hcase
    have hred : convert_log_to_html renderFn oc fs cache logfile =
        convertViaCache renderFn oc cache logfile log := by
      unfold convert_log_to_html
      rw [hlog]
      dsimp only
      rcases hcase with hn | ⟨h, hh, hm⟩
      · rw [hn]
      · rw [hh]
        dsimp only
        rw [if_neg (by omega)]
    rw [hred]
    unfold convertViaCache
    rcases hl : cacheLookup cache (cacheKey logfile log.mtime) with _ | v
    · dsimp only
      rcases oc with _ | _ | msg
      · refine ⟨Or.inr (Or.inl rfl), ?_⟩
        intro kv hkv
        rcases List.mem_cons.mp hkv with hkv | hkv
        · refine ⟨logfile, toString log.mtime, hnc, ?_, ?_⟩
          · rw [hkv]
            rfl
          · rw [hkv, hct]
        · exact hinv kv hkv
      · exact ⟨Or.inl rfl, hinv⟩
      · exact ⟨Or.inr (Or.inr ⟨msg, rfl, rfl⟩), hinv⟩
    · dsimp only
      have hmem := cacheLookup_mem _ _ _ hl
      obtain ⟨f, t, hfc, hk, hv⟩ := hinv _ hmem
      have h0 := congrArg String.data hk
      rw [cacheKey_data, keyAppend_data] at h0
      obtain ⟨hfeq, hteq⟩ := splitAtColon _ _ _ _ hnc hfc h0
      have hf2 : f = logfile := String.ext hfeq.symm
      have ht2 : t = toString log.mtime := String.ext hteq.symm
      refine ⟨Or.inr (Or.inl ?_), hinv⟩
      rw [show v = renderFn (contentAt f t) from hv, hf2, ht2, hct]

/-- Claim C7, witness: the freshness theorem applied to a concrete store
with no pre-converted artifact and an empty cache; the served value is
the render of the log's current content and the invariant holds after. -/
theorem c7_cache_freshness_witness :
    ((convert_log_to_html idFn RenderOutcome.ok exFs1 [] "a.log").1 = none ∨
      (convert_log_to_html idFn RenderOutcome.ok exFs1 [] "a.log").1 = some (idFn "data") ∨
      ∃ msg, RenderOutcome.ok = RenderOutcome.exn msg ∧
        (convert_log_to_html idFn RenderOutcome.ok exFs1 [] "a.log").1 =
          some (errorPage msg)) ∧
    CacheConsistent idFn exContentAt
      (convert_log_to_html idFn RenderOutcome.ok exFs1 [] "a.log").2 :=
  (c7_cache_freshness idFn exContentAt RenderOutcome.ok exFs1 [] "a.log" ⟨"data", 3⟩
    (by decide) (by unfold noColon; decide) rfl
    (fun kv hkv => absurd hkv (List.not_mem_nil kv))).2.2 (Or.inl rfl)
